import Mathlib

/-!
# Verification of `onnxruntime-training-examples` (fragment)

Shallow embedding of two source files and proofs of the frozen claims:

* `src/huggingface-gpt2/ort_addon/ort_supplement/src/transformers/azureml_adapter.py`
  — environment-variable plumbing for the NCCL backend (namespace `AzuremlAdapter`);
* `src/nvidia-bert/bert_runner/bert_dataset.py`
  — the multi-shard streaming dataloader and label reconstruction
  (namespace `BertDataset`).

Python's process environment `os.environ` is modelled as an association list of
strings; a write is a `cons` (shadowing earlier bindings, observationally equal
to in-place mutation under `lookup`).  Fallible Python code is modelled in
`Except PyErr`: reading a missing key from `os.environ` raises `KeyError`, and
`int(s)` on a non-numeric string raises `ValueError`.
-/

set_option autoImplicit false
set_option linter.unnecessarySeqFocus false

namespace AzuremlAdapter

/-- Python exception taxonomy relevant to `azureml_adapter.py`.

`keyError k` models `os.environ[k]` with `k` unset; `valueError s` models
`int(s)` on a non-numeric string.  `configurationError` does not correspond to
anything in the source: the spec names a dedicated `ConfigurationError` class,
and this constructor exists only so that the spec's claims about that class can
be stated and compared with what the code actually raises. -/
inductive PyErr where
  | keyError (key : String)
  | valueError (arg : String)
  | configurationError
  deriving DecidableEq, Repr

instance {ε α : Type} [DecidableEq ε] [DecidableEq α] : DecidableEq (Except ε α) :=
  fun x y =>
    match x, y with
    | .ok a, .ok b =>
      match decEq a b with
      | isTrue h => isTrue (h ▸ rfl)
      | isFalse h => isFalse (fun hh => h (Except.ok.inj hh))
    | .error a, .error b =>
      match decEq a b with
      | isTrue h => isTrue (h ▸ rfl)
      | isFalse h => isFalse (fun hh => h (Except.error.inj hh))
    | .ok _, .error _ => isFalse (fun h => Except.noConfusion h)
    | .error _, .ok _ => isFalse (fun h => Except.noConfusion h)

/-- The process environment: an association list from variable names to
values, queried by first match. -/
abbrev Env := List (String × String)

/-- `os.environ[k]` as a read: the value, or `KeyError` when unset. -/
def envGet (env : Env) (k : String) : Except PyErr String :=
  match env.lookup k with
  | some v => .ok v
  | none => .error (.keyError k)

/-- `os.environ[k] = v`: a shadowing write. -/
def envSet (env : Env) (k v : String) : Env := (k, v) :: env

/-- `k in os.environ`. -/
def envContains (env : Env) (k : String) : Bool := (env.lookup k).isSome

/-- Python `s.split(sep)` for a one-character separator, on the character
list of `s`: splits at every occurrence, keeping empty pieces, and yields
`[s]` when the separator does not occur (so `"".split(sep) == [""]`). -/
def pySplit (sep : Char) : List Char → List (List Char)
  | [] => [[]]
  | c :: cs =>
    let rest := pySplit sep cs
    if c = sep then [] :: rest
    else
      match rest with
      | [] => [[c]]
      | r :: rs => (c :: r) :: rs

/-- `s.split(sep)` on strings. -/
def pySplitStr (sep : Char) (s : String) : List String :=
  (pySplit sep s.toList).map List.asString

/-- Python `int(s)`: strip surrounding whitespace, allow an optional sign,
then require a nonempty run of decimal digits.  (Underscore grouping and
non-ASCII digits, which CPython also accepts, are not modelled; no claim
depends on them.) -/
def digitsVal (cs : List Char) : Option Nat :=
  if cs ≠ [] ∧ cs.all Char.isDigit then
    some (cs.foldl (fun a c => a * 10 + (c.toNat - 48)) 0)
  else
    none

/-- Strip leading and trailing whitespace from a character list (Python
`str.strip()` as applied by `int`). -/
def pyStrip (cs : List Char) : List Char :=
  ((cs.dropWhile Char.isWhitespace).reverse.dropWhile Char.isWhitespace).reverse

/-- See `digitsVal`; this is `int(s)` returning `none` in place of
`ValueError`. -/
def pyInt (s : String) : Option Int :=
  match pyStrip s.toList with
  | '+' :: rest => (digitsVal rest).map Int.ofNat
  | '-' :: rest => (digitsVal rest).map (fun n => -(Int.ofNat n))
  | rest => (digitsVal rest).map Int.ofNat

/-- `int(os.environ[k])`: `KeyError` when unset, `ValueError` when
non-numeric. -/
def envGetInt (env : Env) (k : String) : Except PyErr Int :=
  match envGet env k with
  | .error e => .error e
  | .ok s =>
    match pyInt s with
    | some n => .ok n
    | none => .error (.valueError s)

/-- `set_environment_variables_for_nccl_backend(single_node, master_port)`,
lines 4–27 of `azureml_adapter.py`, as a function from the starting
environment to the final one (or the first exception).

Line-by-line: read `OMPI_COMM_WORLD_RANK` into `RANK`; read
`OMPI_COMM_WORLD_SIZE` into `WORLD_SIZE`; if not single-node, split
`AZ_BATCH_MASTER_NODE` on `":"`, set `MASTER_ADDR` to the first part, and set
`MASTER_PORT` to `master_port` only when unset; otherwise copy
`AZ_BATCHAI_MPI_MASTER_NODE` into `MASTER_ADDR` and force `MASTER_PORT` to
`"54965"`.  The `print` on line 18 reads `NCCL_SOCKET_IFNAME` *before* line 20
overwrites it with `"^docker0,lo"`, so an unset `NCCL_SOCKET_IFNAME` raises
`KeyError`.  The trailing prints (lines 22–27) re-read `RANK`, `WORLD_SIZE`,
`MASTER_ADDR`, `MASTER_PORT` and `NCCL_SOCKET_IFNAME`; they are kept as reads
here (all five are set by that point on every path). -/
def set_environment_variables_for_nccl_backend
    (env : Env) (single_node : Bool) (master_port : Int) : Except PyErr Env :=
  match envGet env "OMPI_COMM_WORLD_RANK" with
  | .error e => .error e
  | .ok r =>
  let env := envSet env "RANK" r
  match envGet env "OMPI_COMM_WORLD_SIZE" with
  | .error e => .error e
  | .ok ws =>
  let env := envSet env "WORLD_SIZE" ws
  let branch : Except PyErr Env :=
    if !single_node then
      match envGet env "AZ_BATCH_MASTER_NODE" with
      | .error e => .error e
      | .ok m =>
        let master_node_params := pySplitStr ':' m
        let env := envSet env "MASTER_ADDR" (master_node_params.headD "")
        let env :=
          if envContains env "MASTER_PORT" then env
          else envSet env "MASTER_PORT" (toString master_port)
        .ok env
    else
      match envGet env "AZ_BATCHAI_MPI_MASTER_NODE" with
      | .error e => .error e
      | .ok a =>
        let env := envSet env "MASTER_ADDR" a
        .ok (envSet env "MASTER_PORT" "54965")
  match branch with
  | .error e => .error e
  | .ok env =>
  match envGet env "NCCL_SOCKET_IFNAME" with
  | .error e => .error e
  | .ok _ =>
  let env := envSet env "NCCL_SOCKET_IFNAME" "^docker0,lo"
  match envGet env "RANK" with
  | .error e => .error e
  | .ok _ =>
  match envGet env "WORLD_SIZE" with
  | .error e => .error e
  | .ok _ =>
  match envGet env "MASTER_ADDR" with
  | .error e => .error e
  | .ok _ =>
  match envGet env "MASTER_PORT" with
  | .error e => .error e
  | .ok _ =>
  match envGet env "NCCL_SOCKET_IFNAME" with
  | .error e => .error e
  | .ok _ => .ok env

/-- `get_local_rank()`. -/
def get_local_rank (env : Env) : Except PyErr Int :=
  envGetInt env "OMPI_COMM_WORLD_LOCAL_RANK"

/-- `get_global_size()`. -/
def get_global_size (env : Env) : Except PyErr Int :=
  envGetInt env "OMPI_COMM_WORLD_SIZE"

/-- `get_local_size()`. -/
def get_local_size (env : Env) : Except PyErr Int :=
  envGetInt env "OMPI_COMM_WORLD_LOCAL_SIZE"

/-- `get_world_size()`. -/
def get_world_size (env : Env) : Except PyErr Int :=
  envGetInt env "WORLD_SIZE"

/-- `get_world_rank()`. -/
def get_world_rank (env : Env) : Except PyErr Int :=
  envGetInt env "RANK"

/-- Whether an `Except` is a success. -/
def exceptOk {ε α : Type} : Except ε α → Bool
  | .ok _ => true
  | .error _ => false

/-- Look a key up in the environment produced by a successful call. -/
def okEnvLookup (r : Except PyErr Env) (k : String) : Option String :=
  match r with
  | .ok e => e.lookup k
  | .error _ => none

end AzuremlAdapter

namespace BertDataset

/-!
Embedding of `bert_dataset.py`.  A sample's sparse mask columns are lists
(`masked_lm_positions : List Nat`, `masked_lm_ids : List Int`, parallel
equal-width columns in the HDF5 file); a shard is the list of its samples;
`args.max_seq_length` and `args.max_predictions_per_seq` are passed
explicitly.  `torch.utils.data.DataLoader(…, batch_size = B, drop_last =
True)` over an un-shuffled dataset is embedded by its documented contract:
consecutive groups of `B` samples, the final partial group dropped.
-/

/-- `BertSingleFileDataset._get_masked_token_count` (lines 168–173):
`(masked_lm_positions == 0).nonzero()` lists the indices of *all* zero
entries; when nonempty the first such index becomes the count, otherwise the
count is `args.max_predictions_per_seq`. -/
def _get_masked_token_count (max_predictions_per_seq : Nat)
    (masked_lm_positions : List Nat) : Nat :=
  match masked_lm_positions.findIdx? (· == 0) with
  | some i => i
  | none => max_predictions_per_seq

/-- Elementwise fancy-index assignment `labels[positions] = values` on a CPU
tensor: sequential writes, so on duplicated positions the last write wins.
`List.set` ignores an out-of-range index; in Python an index `≥ len(labels)`
faults instead, which is exactly the documented precondition the claims
carry. -/
def scatterAssign (labels : List Int) : List Nat → List Int → List Int
  | [], _ => labels
  | _ :: _, [] => labels
  | p :: ps, v :: vs => scatterAssign (labels.set p v) ps vs

/-- `BertSingleFileDataset._build_masked_lm_labels` (lines 161–166): a vector
of `args.max_seq_length` entries of `-1`, then
`labels[positions[:count]] = ids[:count]`. -/
def _build_masked_lm_labels (max_seq_length max_predictions_per_seq : Nat)
    (masked_lm_positions : List Nat) (masked_lm_ids : List Int) : List Int :=
  let masked_token_count :=
    _get_masked_token_count max_predictions_per_seq masked_lm_positions
  scatterAssign (List.replicate max_seq_length (-1))
    (masked_lm_positions.take masked_token_count)
    (masked_lm_ids.take masked_token_count)

/-- Modelled from the spec (claim C3's own wording, for comparison with the
code): the index of the first zero *within the first `max_predictions`
entries* of `masked_positions`, else `max_predictions`. -/
def spec_masked_token_count (max_predictions : Nat)
    (masked_positions : List Nat) : Nat :=
  match (masked_positions.take max_predictions).findIdx? (· == 0) with
  | some i => i
  | none => max_predictions

/-- The batches `torch.utils.data.DataLoader(dataset, batch_size = B,
drop_last = True)` yields over an un-shuffled in-memory dataset (see
`_singlefile_dataloader_factory`, lines 17–24): consecutive groups of `B`
samples, the trailing partial group dropped. -/
def chunksOfAux {α : Type} (B : Nat) : Nat → List α → List (List α)
  | 0, _ => []
  | fuel + 1, xs =>
    if 0 < B ∧ B ≤ xs.length then
      xs.take B :: chunksOfAux B fuel (xs.drop B)
    else []

/-- See `chunksOfAux`; the fuel `xs.length` always suffices. -/
def chunksOf {α : Type} (B : Nat) (xs : List α) : List (List α) :=
  chunksOfAux B xs.length xs


/-- One `yield` of `BertMultiFileDataloader.__iter__` (lines 61–77), with the
loader's observable state at the instant the batch has been yielded:

* `fileIdx` — the running shard counter `self.file_index` for the shard the
  batch came from (never wrapped, even when looping);
* `futureIdx` — the running index of the shard whose load
  `_fetch_future_dataset_or_none` has in flight (or resolved and adopted
  next) while this batch is consumed, `none` when the list is exhausted and
  not looping;
* `cursor` — `(self.file_index, self.sample_index)` at the yield, *before*
  the `self.sample_index += self.batch_size` that only runs when the
  consumer resumes the generator. -/
structure YieldEvent (α : Type) where
  fileIdx : Nat
  futureIdx : Option Nat
  batch : List α
  cursor : Nat × Nat
  deriving DecidableEq, Repr

/-- The yields produced while one shard (running index `f`, contents `file`)
is the current dataset: its batches in order; the `r`-th yield happens with
`sample_index = si0 + r * B` (`si0` is whatever `self.sample_index` held
when this shard's inner loop began — `__iter__` does not reset it for the
first shard it serves). -/
def fileEvents {α : Type} (B f : Nat) (fut : Option Nat) (si0 : Nat)
    (file : List α) : List (YieldEvent α) :=
  (chunksOf B file).enum.map (fun rb => ⟨f, fut, rb.2, (f, si0 + rb.1 * B)⟩)

/-- `BertMultiFileDataloader.__iter__` (lines 61–77) as the list of its
yields, starting from cursor `(f, si)`.  Guard and prefetch follow
`_fetch_future_dataset_or_none` (lines 83–94): a next shard exists when
`self.loop or index < len(self.files)`, and is addressed as
`self.files[index % len(self.files)]`.  `fuel` bounds the number of shards
processed; for `loop = false` any `fuel ≥ files.length - f` is exact, while
for `loop = true` the Python iteration is infinite and `fuel` gives its
finite prefixes.  (The `none` arm of the inner match is reachable only with
`loop = true` and an empty shard list, where Python raises
`ZeroDivisionError` on `index % 0`.) -/
def iterTrace {α : Type} (loop : Bool) (files : List (List α)) (B : Nat) :
    Nat → Nat → Nat → List (YieldEvent α)
  | 0, _, _ => []
  | fuel + 1, f, si =>
    if loop = true ∨ f < files.length then
      match files.get? (f % files.length) with
      | none => []
      | some file =>
        let fut : Option Nat :=
          if loop = true ∨ f + 1 < files.length then some (f + 1) else none
        fileEvents B f fut si file ++ iterTrace loop files B fuel (f + 1) 0
    else []


/-- The observable fields of a `BertMultiFileDataloader` after `forward`:
the cursor `(self.file_index, self.sample_index)` and whether the pool,
current dataset and in-flight future still exist
(`_destroy_datasets_if_exist` / `_destroy_poolworker_if_exists`, lines
96–107, clear all three). -/
structure LoaderState where
  file_index : Nat
  sample_index : Nat
  hasPool : Bool
  hasDataset : Bool
  hasFuture : Bool
  deriving DecidableEq, Repr

/-- The consuming loop of `BertMultiFileDataloader.forward` (lines 44–47):
`for idx, _ in enumerate(self): if count <= idx: break`.  Each list entry
reached is a batch *drawn* from the generator; the check runs after the
draw, so the loop breaks only after drawing the batch with index `count`.
Returns the number of batches drawn and, when the loop broke early, the
generator's suspended cursor (the post-yield increment of the last drawn
batch never runs, and closing the generator runs no further code); `none`
means the generator was exhausted, in which case `__iter__` itself executed
`self.reset()` (line 77), forcing the cursor to `(0, 0)`. -/
def forwardConsume {α : Type} (count : Nat) :
    List (YieldEvent α) → Nat → Nat × Option (Nat × Nat)
  | [], idx => (idx, none)
  | e :: rest, idx =>
    if count ≤ idx then (idx + 1, some e.cursor)
    else forwardConsume count rest (idx + 1)

/-- Iteration fuel that provably suffices for `forward` to reach its break
or, for a non-looping loader, the end of the shard list: a non-looping
iteration processes at most `files.length` shards, while a looping iteration
that ever yields a batch yields at least one per full pass over the list, so
`files.length * (count + 2)` shards cover more than `count + 1` batches.
The fuel-bounded trace is by construction a prefix of the unbounded
iteration, so the events it does contain are exact. -/
def forwardFuel {α : Type} (loop : Bool) (files : List (List α))
    (count : Nat) : Nat :=
  if loop then files.length * (count + 2) + 1 else files.length + 1

/-- `BertMultiFileDataloader.forward(count)` (lines 44–51) from cursor
`(f0, si0)`, for either loop mode: consume per `forwardConsume`, then
destroy datasets and pool (`_destroy_datasets_if_exist`,
`_destroy_poolworker_if_exists`); the teardown does not touch the cursor
fields.  `some (drawn, state)` gives the number of batches drawn and the
final loader state.  `none` models the calls that never return: a looping
generator never exhausts, so when fewer than `count + 1` batches ever
arrive — every shard yields zero full batches, or the shard list is empty
(where Python instead dies on `index % 0`) — the `for` loop spins forever.
`forwardFuel` is large enough that a short fuel-bounded trace for a looping
loader can only mean that genuinely starved iteration. -/
def forward {α : Type} (loop : Bool) (files : List (List α))
    (B count f0 si0 : Nat) : Option (Nat × LoaderState) :=
  let tr := iterTrace loop files B (forwardFuel loop files count) f0 si0
  let consumed := forwardConsume count tr 0
  match consumed.2 with
  | some c => some (consumed.1, ⟨c.1, c.2, false, false, false⟩)
  | none =>
    if loop then none
    else some (consumed.1, ⟨0, 0, false, false, false⟩)

/-- A minimal heap of Python list objects, indexed by reference id; used to
state the aliasing and in-place mutation behaviour of
`BertMultiFileDataloader.__init__`. -/
structure Heap (α : Type) where
  cells : List (List α)
  deriving DecidableEq, Repr

/-- Dereference a list object (out-of-range reads default to `[]`; claims
only use valid references). -/
def Heap.read {α : Type} (h : Heap α) (ref : Nat) : List α :=
  h.cells.getD ref []

/-- Mutate a list object in place. -/
def Heap.write {α : Type} (h : Heap α) (ref : Nat) (v : List α) : Heap α :=
  ⟨h.cells.set ref v⟩

/-- The fields `BertMultiFileDataloader.__init__` (lines 28–42) sets, in
source order.  `files` holds the *reference* to the caller's list object,
not a copy. -/
structure BertMultiFileDataloader where
  num_workers : Nat
  files : Nat
  batch_size : Nat
  loop : Bool
  shuffle : Bool
  file_index : Nat
  sample_index : Nat
  deriving DecidableEq, Repr

/-- `BertMultiFileDataloader.__init__(files, batch_size, shuffle, loop,
num_workers)`: stores the arguments — `self.files = files` aliases the
caller's list — and, when `shuffle` is set, runs
`random.shuffle(self.files)`, an in-place reordering of the referenced
list; `shuffleResult` stands for the reordering the RNG produces.  The
cursor starts at `(0, 0)`; pool and datasets start absent (see
`LoaderState`). -/
def dataloader_init {α : Type} (h : Heap α) (files batch_size : Nat)
    (shuffle loop : Bool) (num_workers : Nat)
    (shuffleResult : List α → List α) : Heap α × BertMultiFileDataloader :=
  let h2 := if shuffle then h.write files (shuffleResult (h.read files)) else h
  (h2, ⟨num_workers, files, batch_size, loop, shuffle, 0, 0⟩)

end BertDataset

namespace AzuremlAdapter

/-- Claim C1, amended: a call to `set_environment_variables_for_nccl_backend`
with the launcher rank (resp. world-size) variable absent fails with
`KeyError` on that variable, and every accessor whose underlying variable is
unset fails with `KeyError`, or with `ValueError` when the value is
non-numeric — the adapter never silently proceeds and has no fallback.  (The
failures are Python's builtin exceptions; no dedicated `ConfigurationError`
class exists in the source.) -/
theorem c1_missing_or_non_numeric_fails
    (env : Env) (single_node : Bool) (master_port : Int) :
    (env.lookup "OMPI_COMM_WORLD_RANK" = none →
      set_environment_variables_for_nccl_backend env single_node master_port =
        .error (.keyError "OMPI_COMM_WORLD_RANK")) ∧
    (∀ r, env.lookup "OMPI_COMM_WORLD_RANK" = some r →
      env.lookup "OMPI_COMM_WORLD_SIZE" = none →
      set_environment_variables_for_nccl_backend env single_node master_port =
        .error (.keyError "OMPI_COMM_WORLD_SIZE")) ∧
    (env.lookup "OMPI_COMM_WORLD_LOCAL_RANK" = none →
      get_local_rank env = .error (.keyError "OMPI_COMM_WORLD_LOCAL_RANK")) ∧
    (∀ s, env.lookup "OMPI_COMM_WORLD_LOCAL_RANK" = some s → pyInt s = none →
      get_local_rank env = .error (.valueError s)) ∧
    (env.lookup "OMPI_COMM_WORLD_SIZE" = none →
      get_global_size env = .error (.keyError "OMPI_COMM_WORLD_SIZE")) ∧
    (∀ s, env.lookup "OMPI_COMM_WORLD_SIZE" = some s → pyInt s = none →
      get_global_size env = .error (.valueError s)) ∧
    (env.lookup "OMPI_COMM_WORLD_LOCAL_SIZE" = none →
      get_local_size env = .error (.keyError "OMPI_COMM_WORLD_LOCAL_SIZE")) ∧
    (∀ s, env.lookup "OMPI_COMM_WORLD_LOCAL_SIZE" = some s → pyInt s = none →
      get_local_size env = .error (.valueError s)) ∧
    (env.lookup "WORLD_SIZE" = none →
      get_world_size env = .error (.keyError "WORLD_SIZE")) ∧
    (∀ s, env.lookup "WORLD_SIZE" = some s → pyInt s = none →
      get_world_size env = .error (.valueError s)) ∧
    (env.lookup "RANK" = none →
      get_world_rank env = .error (.keyError "RANK")) ∧
    (∀ s, env.lookup "RANK" = some s → pyInt s = none →
      get_world_rank env = .error (.valueError s)) := by
  refine ⟨?_, ?_, ?_, ?_, ?_, ?_, ?_, ?_, ?_, ?_, ?_, ?_⟩
  · intro h
    simp [set_environment_variables_for_nccl_backend, envGet, h]
  · intro r h1 h2
    simp [set_environment_variables_for_nccl_backend, envGet, envSet, h1,
      List.lookup, h2]
  all_goals
    first
    | (intro h; simp [get_local_rank, get_global_size, get_local_size,
        get_world_size, get_world_rank, envGetInt, envGet, h])
    | (intro s h1 h2; simp [get_local_rank, get_global_size, get_local_size,
        get_world_size, get_world_rank, envGetInt, envGet, h1, h2])

/-- Claim C1 witness: concrete instantiations of the amended claim. -/
theorem c1_missing_or_non_numeric_fails_witness :
    set_environment_variables_for_nccl_backend [] false 6105 =
      .error (.keyError "OMPI_COMM_WORLD_RANK") ∧
    get_local_rank [("OMPI_COMM_WORLD_LOCAL_RANK", "abc")] =
      .error (.valueError "abc") :=
  ⟨(c1_missing_or_non_numeric_fails [] false 6105).1 rfl,
   (c1_missing_or_non_numeric_fails
      [("OMPI_COMM_WORLD_LOCAL_RANK", "abc")] false 6105).2.2.2.1
     "abc" rfl (by decide)⟩

/-- Claim C1 counterexample: with the rank variable absent the code raises
the builtin `KeyError`, not the `ConfigurationError` the claim names (no such
class exists in the source); likewise a non-numeric accessor raises
`ValueError`. -/
theorem c1_counterexample :
    set_environment_variables_for_nccl_backend [] false 6105 =
      .error (.keyError "OMPI_COMM_WORLD_RANK") ∧
    set_environment_variables_for_nccl_backend [] false 6105 ≠
      .error .configurationError ∧
    get_local_rank [("OMPI_COMM_WORLD_LOCAL_RANK", "abc")] =
      .error (.valueError "abc") ∧
    get_local_rank [("OMPI_COMM_WORLD_LOCAL_RANK", "abc")] ≠
      .error .configurationError := by decide

/-- Claim C2, amended: with `single_node = False` and a master-node
descriptor containing no `":"` separator, the call does not fail on the
descriptor: `split(':')` returns the whole string as its only piece and
`MASTER_ADDR` is set to the entire descriptor.  (Given the other required
variables present, the call succeeds; no validation of the descriptor
exists in the source.) -/
theorem c2_no_separator_sets_addr_to_whole_descriptor
    (env : Env) (master_port : Int) (r ws m x : String)
    (hr : env.lookup "OMPI_COMM_WORLD_RANK" = some r)
    (hw : env.lookup "OMPI_COMM_WORLD_SIZE" = some ws)
    (hm : env.lookup "AZ_BATCH_MASTER_NODE" = some m)
    (hsplit : pySplitStr ':' m = [m])
    (hn : env.lookup "NCCL_SOCKET_IFNAME" = some x) :
    exceptOk (set_environment_variables_for_nccl_backend env false master_port)
        = true ∧
    okEnvLookup (set_environment_variables_for_nccl_backend env false master_port)
        "MASTER_ADDR" = some m := by
  rcases hmp : env.lookup "MASTER_PORT" with _ | p <;>
    simp [set_environment_variables_for_nccl_backend, envGet, envSet,
      envContains, exceptOk, okEnvLookup, List.lookup, hr, hw, hm, hn, hmp,
      hsplit]

/-- Claim C2 witness: a concrete separator-free descriptor. -/
theorem c2_no_separator_witness :
    exceptOk (set_environment_variables_for_nccl_backend
      [("OMPI_COMM_WORLD_RANK", "0"), ("OMPI_COMM_WORLD_SIZE", "2"),
       ("AZ_BATCH_MASTER_NODE", "node123"), ("NCCL_SOCKET_IFNAME", "eth0")]
      false 6105) = true ∧
    okEnvLookup (set_environment_variables_for_nccl_backend
      [("OMPI_COMM_WORLD_RANK", "0"), ("OMPI_COMM_WORLD_SIZE", "2"),
       ("AZ_BATCH_MASTER_NODE", "node123"), ("NCCL_SOCKET_IFNAME", "eth0")]
      false 6105) "MASTER_ADDR" = some "node123" :=
  c2_no_separator_sets_addr_to_whole_descriptor
    [("OMPI_COMM_WORLD_RANK", "0"), ("OMPI_COMM_WORLD_SIZE", "2"),
     ("AZ_BATCH_MASTER_NODE", "node123"), ("NCCL_SOCKET_IFNAME", "eth0")]
    6105 "0" "2" "node123" "eth0" rfl rfl rfl (by decide) rfl

/-- Claim C2 counterexample: with `AZ_BATCH_MASTER_NODE = "node123"` (no
`":"` separator) and the other required variables present, the call
*succeeds* — it does not fail with any error, let alone the claimed
`ConfigurationError` — and silently sets `MASTER_ADDR` to the whole
descriptor. -/
theorem c2_counterexample :
    exceptOk (set_environment_variables_for_nccl_backend
      [("OMPI_COMM_WORLD_RANK", "0"), ("OMPI_COMM_WORLD_SIZE", "2"),
       ("AZ_BATCH_MASTER_NODE", "node123"), ("NCCL_SOCKET_IFNAME", "eth0")]
      false 6105) = true ∧
    okEnvLookup (set_environment_variables_for_nccl_backend
      [("OMPI_COMM_WORLD_RANK", "0"), ("OMPI_COMM_WORLD_SIZE", "2"),
       ("AZ_BATCH_MASTER_NODE", "node123"), ("NCCL_SOCKET_IFNAME", "eth0")]
      false 6105) "MASTER_ADDR" = some "node123" ∧
    set_environment_variables_for_nccl_backend
      [("OMPI_COMM_WORLD_RANK", "0"), ("OMPI_COMM_WORLD_SIZE", "2"),
       ("AZ_BATCH_MASTER_NODE", "node123"), ("NCCL_SOCKET_IFNAME", "eth0")]
      false 6105 ≠ .error .configurationError := by decide

/-- Claim C8: when `MASTER_PORT` is already set before the call and
`single_node = False`, any successful call leaves `MASTER_PORT` unchanged —
the default port argument never overwrites a pre-existing explicit port. -/
theorem c8_master_port_preserved
    (env : Env) (master_port : Int) (env' : Env) (p : String)
    (hp : env.lookup "MASTER_PORT" = some p)
    (h : set_environment_variables_for_nccl_backend env false master_port =
      .ok env') :
    env'.lookup "MASTER_PORT" = some p := by
  rcases h1 : env.lookup "OMPI_COMM_WORLD_RANK" with _ | r <;>
  rcases h2 : env.lookup "OMPI_COMM_WORLD_SIZE" with _ | ws <;>
  rcases h3 : env.lookup "AZ_BATCH_MASTER_NODE" with _ | m <;>
  rcases h4 : env.lookup "NCCL_SOCKET_IFNAME" with _ | x <;>
    simp [set_environment_variables_for_nccl_backend, envGet, envSet,
      envContains, List.lookup, h1, h2, h3, h4, hp] at h <;>
    (subst h; simp [List.lookup, hp])

/-- Claim C8 witness: a concrete environment with `MASTER_PORT` pre-set. -/
theorem c8_master_port_preserved_witness :
    List.lookup "MASTER_PORT"
      [("NCCL_SOCKET_IFNAME", "^docker0,lo"), ("MASTER_ADDR", "n"),
       ("WORLD_SIZE", "2"), ("RANK", "0"),
       ("OMPI_COMM_WORLD_RANK", "0"), ("OMPI_COMM_WORLD_SIZE", "2"),
       ("AZ_BATCH_MASTER_NODE", "n:1"), ("NCCL_SOCKET_IFNAME", "eth0"),
       ("MASTER_PORT", "1234")] = some "1234" :=
  c8_master_port_preserved
    [("OMPI_COMM_WORLD_RANK", "0"), ("OMPI_COMM_WORLD_SIZE", "2"),
     ("AZ_BATCH_MASTER_NODE", "n:1"), ("NCCL_SOCKET_IFNAME", "eth0"),
     ("MASTER_PORT", "1234")]
    6105
    [("NCCL_SOCKET_IFNAME", "^docker0,lo"), ("MASTER_ADDR", "n"),
     ("WORLD_SIZE", "2"), ("RANK", "0"),
     ("OMPI_COMM_WORLD_RANK", "0"), ("OMPI_COMM_WORLD_SIZE", "2"),
     ("AZ_BATCH_MASTER_NODE", "n:1"), ("NCCL_SOCKET_IFNAME", "eth0"),
     ("MASTER_PORT", "1234")]
    "1234" (by decide) (by decide)

/-- Claim C9, amended: every call of the adapter that *completes* leaves
`NCCL_SOCKET_IFNAME` equal to the fixed pattern `"^docker0,lo"`, for either
value of `single_node`; but a call with `NCCL_SOCKET_IFNAME` previously
*unset* does not complete — the logging line reads the variable before the
overwrite and raises `KeyError`. -/
theorem c9_ifname_forced_on_completion
    (env : Env) (single_node : Bool) (master_port : Int) (env' : Env)
    (h : set_environment_variables_for_nccl_backend env single_node
      master_port = .ok env') :
    env'.lookup "NCCL_SOCKET_IFNAME" = some "^docker0,lo" := by
  cases single_node with
  | false =>
    rcases h1 : env.lookup "OMPI_COMM_WORLD_RANK" with _ | r <;>
    rcases h2 : env.lookup "OMPI_COMM_WORLD_SIZE" with _ | ws <;>
    rcases h3 : env.lookup "AZ_BATCH_MASTER_NODE" with _ | m <;>
    rcases h5 : env.lookup "MASTER_PORT" with _ | p <;>
    rcases h4 : env.lookup "NCCL_SOCKET_IFNAME" with _ | x <;>
      simp [set_environment_variables_for_nccl_backend, envGet, envSet,
        envContains, List.lookup, h1, h2, h3, h4, h5] at h <;>
      (subst h; simp [List.lookup])
  | true =>
    rcases h1 : env.lookup "OMPI_COMM_WORLD_RANK" with _ | r <;>
    rcases h2 : env.lookup "OMPI_COMM_WORLD_SIZE" with _ | ws <;>
    rcases h3 : env.lookup "AZ_BATCHAI_MPI_MASTER_NODE" with _ | a <;>
    rcases h4 : env.lookup "NCCL_SOCKET_IFNAME" with _ | x <;>
      simp [set_environment_variables_for_nccl_backend, envGet, envSet,
        envContains, List.lookup, h1, h2, h3, h4] at h <;>
      (subst h; simp [List.lookup])

/-- Claim C9 witness: a concrete completing call. -/
theorem c9_ifname_forced_witness :
    List.lookup "NCCL_SOCKET_IFNAME"
      [("NCCL_SOCKET_IFNAME", "^docker0,lo"), ("MASTER_PORT", "6105"),
       ("MASTER_ADDR", "n"), ("WORLD_SIZE", "2"), ("RANK", "0"),
       ("OMPI_COMM_WORLD_RANK", "0"), ("OMPI_COMM_WORLD_SIZE", "2"),
       ("AZ_BATCH_MASTER_NODE", "n:1"), ("NCCL_SOCKET_IFNAME", "eth0")]
      = some "^docker0,lo" :=
  c9_ifname_forced_on_completion
    [("OMPI_COMM_WORLD_RANK", "0"), ("OMPI_COMM_WORLD_SIZE", "2"),
     ("AZ_BATCH_MASTER_NODE", "n:1"), ("NCCL_SOCKET_IFNAME", "eth0")]
    false 6105
    [("NCCL_SOCKET_IFNAME", "^docker0,lo"), ("MASTER_PORT", "6105"),
     ("MASTER_ADDR", "n"), ("WORLD_SIZE", "2"), ("RANK", "0"),
     ("OMPI_COMM_WORLD_RANK", "0"), ("OMPI_COMM_WORLD_SIZE", "2"),
     ("AZ_BATCH_MASTER_NODE", "n:1"), ("NCCL_SOCKET_IFNAME", "eth0")]
    (by decide)

/-- Claim C9 counterexample: with `NCCL_SOCKET_IFNAME` unset (and every
other required variable present), the call does *not* complete: the `print`
on line 18 reads the variable before line 20 would overwrite it, raising
`KeyError`.  The claim's "regardless of whether the variable was previously
set or unset, configure completes" is therefore false. -/
theorem c9_counterexample :
    set_environment_variables_for_nccl_backend
      [("OMPI_COMM_WORLD_RANK", "0"), ("OMPI_COMM_WORLD_SIZE", "2"),
       ("AZ_BATCH_MASTER_NODE", "node:1")] false 6105 =
      .error (.keyError "NCCL_SOCKET_IFNAME") ∧
    exceptOk (set_environment_variables_for_nccl_backend
      [("OMPI_COMM_WORLD_RANK", "0"), ("OMPI_COMM_WORLD_SIZE", "2"),
       ("AZ_BATCH_MASTER_NODE", "node:1")] false 6105) = false := by decide

end AzuremlAdapter

namespace BertDataset

/-- Claim C3 counterexample: with `max_predictions = 2` and
`masked_positions = [1, 2, 3, 0]`, whose only zero sits at index `3 ≥ 2`,
the code returns `3` (the index of the first zero *anywhere*), while the
claim says the result stays at `max_predictions = 2`. -/
theorem c3_counterexample :
    _get_masked_token_count 2 [1, 2, 3, 0] = 3 ∧
    spec_masked_token_count 2 [1, 2, 3, 0] = 2 ∧
    (3 : Nat) ≠ 2 := by decide

/-- Claim C3, amended: for every `masked_positions` vector of length at most
`max_predictions` (which holds for the on-disk columns, whose width is
`max_predictions_per_seq`), the computed count equals the claim's rule — the
index of the first zero within the first `max_predictions` entries, else
`max_predictions`.  For longer vectors the code instead uses the first zero
*anywhere*, even at an index `≥ max_predictions`. -/
theorem c3_first_zero_of_fitting_vector
    (max_predictions : Nat) (masked_positions : List Nat)
    (hlen : masked_positions.length ≤ max_predictions) :
    _get_masked_token_count max_predictions masked_positions =
      spec_masked_token_count max_predictions masked_positions := by
  unfold _get_masked_token_count spec_masked_token_count
  rw [List.take_of_length_le hlen]

/-- Claim C3 witness: a concrete fitting vector. -/
theorem c3_first_zero_witness :
    [5, 3, 0, 7].length ≤ 8 ∧
    _get_masked_token_count 8 [5, 3, 0, 7] =
      spec_masked_token_count 8 [5, 3, 0, 7] :=
  ⟨by decide, c3_first_zero_of_fitting_vector 8 [5, 3, 0, 7] (by decide)⟩

theorem scatterAssign_length (l : List Int) (ps : List Nat) (vs : List Int) :
    (scatterAssign l ps vs).length = l.length := by
  induction ps generalizing l vs with
  | nil => simp [scatterAssign]
  | cons p ps ih =>
    cases vs with
    | nil => simp [scatterAssign]
    | cons v vs => simp [scatterAssign, ih]

theorem scatterAssign_getElem?_not_mem (l : List Int) (ps : List Nat)
    (vs : List Int) (j : Nat) (hj : j ∉ ps) :
    (scatterAssign l ps vs)[j]? = l[j]? := by
  induction ps generalizing l vs with
  | nil => simp [scatterAssign]
  | cons p ps ih =>
    cases vs with
    | nil => simp [scatterAssign]
    | cons v vs =>
      have hj1 : j ∉ ps := fun hmem => hj (List.mem_cons_of_mem _ hmem)
      have hjp : p ≠ j := fun hh => hj (hh ▸ List.mem_cons_self _ _)
      rw [scatterAssign, ih (l.set p v) vs hj1, List.getElem?_set_ne hjp]

theorem scatterAssign_getElem?_last (l : List Int) (ps : List Nat)
    (vs : List Int) (i p : Nat) (v : Int)
    (hp : ps[i]? = some p) (hv : vs[i]? = some v) (hbound : p < l.length)
    (hlater : ∀ (k q : Nat), i < k → ps[k]? = some q → q ≠ p) :
    (scatterAssign l ps vs)[p]? = some v := by
  induction ps generalizing l vs i with
  | nil => simp at hp
  | cons p0 ps ih =>
    cases vs with
    | nil => simp at hv
    | cons v0 vs =>
      cases i with
      | zero =>
        have hp0 : p0 = p := by simpa using hp
        have hv0 : v0 = v := by simpa using hv
        have hnotmem : p ∉ ps := by
          intro hmem
          rcases List.mem_iff_getElem?.1 hmem with ⟨n, hn⟩
          exact hlater (n + 1) p (Nat.succ_pos n) (by simpa using hn) rfl
        rw [scatterAssign, scatterAssign_getElem?_not_mem _ _ _ _ hnotmem, hp0,
          List.getElem?_set_self hbound, hv0]
      | succ n =>
        simp only [List.getElem?_cons_succ] at hp hv
        rw [scatterAssign]
        exact ih (l.set p0 v0) vs n hp hv (by simpa using hbound)
          (fun k q hk hq => hlater (k + 1) q (by omega) (by simpa using hq))

/-- Claim C4 counterexample: `max_seq_length = 4`, `max_predictions = 2`,
`masked_positions = [1, 1]` (all values `< 4`, so the documented
precondition holds), `masked_values = [2, 3]`.  The claim requires position
`1` — listed as entry `0` of the first `masked_token_count = 2` positions —
to hold the corresponding value `2`; the sequential fancy-index assignment
makes the last duplicate win, so the label at position `1` is `3`. -/
theorem c4_counterexample :
    (∀ p ∈ [1, 1], p < 4) ∧
    _get_masked_token_count 2 [1, 1] = 2 ∧
    _build_masked_lm_labels 4 2 [1, 1] [2, 3] = [-1, 3, -1, -1] ∧
    (_build_masked_lm_labels 4 2 [1, 1] [2, 3])[1]? ≠ some 2 := by decide

/-- Claim C4, amended: under the documented precondition that all masked
position values are `< max_seq_length`, the reconstructed dense label vector
has length exactly `max_seq_length`; every entry outside the positions
listed in the first `masked_token_count` entries of `masked_positions`
equals `-1`; and a listed position holds the masked value corresponding to
its *last* occurrence among those entries — in particular the corresponding
entry of `masked_values` whenever the listed positions are distinct. -/
theorem c4_dense_label_reconstruction
    (max_seq_length max_predictions : Nat)
    (positions : List Nat) (ids : List Int) (count : Nat)
    (hcount : count = _get_masked_token_count max_predictions positions)
    (hlt : ∀ p ∈ positions, p < max_seq_length) :
    (_build_masked_lm_labels max_seq_length max_predictions positions
      ids).length = max_seq_length ∧
    (∀ j, j < max_seq_length → j ∉ positions.take count →
      (_build_masked_lm_labels max_seq_length max_predictions positions
        ids)[j]? = some (-1)) ∧
    (∀ (i p : Nat) (v : Int), (positions.take count)[i]? = some p →
      (ids.take count)[i]? = some v →
      (∀ (k q : Nat), i < k → (positions.take count)[k]? = some q → q ≠ p) →
      (_build_masked_lm_labels max_seq_length max_predictions positions
        ids)[p]? = some v) := by
  subst hcount
  unfold _build_masked_lm_labels
  refine ⟨?_, ?_, ?_⟩
  · rw [scatterAssign_length, List.length_replicate]
  · intro j hj hnot
    rw [scatterAssign_getElem?_not_mem _ _ _ _ hnot,
      List.getElem?_replicate_of_lt hj]
  · intro i p v hp hv hlater
    have hpmem : p ∈ positions :=
      List.mem_of_mem_take (List.mem_iff_getElem?.2 ⟨i, hp⟩)
    exact scatterAssign_getElem?_last _ _ _ i p v hp hv
      (by simpa using hlt p hpmem) hlater

/-- Claim C4 witness: `max_seq_length = 6`, `max_predictions = 3`,
positions `[2, 4, 0, 5]` (count stops at the zero, so the first two entries
`[2, 4]` are live), values `[7, 8, 9, 10]`. -/
theorem c4_dense_label_witness :
    (_build_masked_lm_labels 6 3 [2, 4, 0, 5] [7, 8, 9, 10]).length = 6 ∧
    (_build_masked_lm_labels 6 3 [2, 4, 0, 5] [7, 8, 9, 10])[1]? =
      some (-1) ∧
    (_build_masked_lm_labels 6 3 [2, 4, 0, 5] [7, 8, 9, 10])[4]? = some 8 := by
  have h := c4_dense_label_reconstruction 6 3 [2, 4, 0, 5] [7, 8, 9, 10] 2
    rfl (by decide)
  refine ⟨h.1, h.2.1 1 (by decide) (by decide), ?_⟩
  refine h.2.2 1 4 8 (by decide) (by decide) ?_
  intro k q hk hq
  have hlen : (([2, 4, 0, 5] : List Nat).take 2).length ≤ k := by
    simp; omega
  rw [List.getElem?_eq_none hlen] at hq
  exact Option.noConfusion hq

theorem chunksOfAux_length {α : Type} (B : Nat) (hB : 0 < B) (fuel : Nat) :
    ∀ xs : List α, xs.length ≤ fuel →
      (chunksOfAux B fuel xs).length = xs.length / B := by
  induction fuel with
  | zero =>
    intro xs hf
    have h0 : xs.length = 0 := Nat.le_zero.1 hf
    simp [chunksOfAux, h0]
  | succ fuel ih =>
    intro xs hf
    by_cases hC : B ≤ xs.length
    · have hrec := ih (xs.drop B) (by simp [List.length_drop]; omega)
      simp only [chunksOfAux, if_pos (And.intro hB hC), List.length_cons,
        hrec, List.length_drop]
      rw [Nat.div_eq_sub_div hB hC]
    · rw [chunksOfAux, if_neg (fun hand => hC hand.2)]
      simp [Nat.div_eq_of_lt (Nat.lt_of_not_le hC)]

theorem chunksOfAux_mem_length {α : Type} (B fuel : Nat) :
    ∀ (xs : List α) (c : List α), c ∈ chunksOfAux B fuel xs →
      c.length = B := by
  induction fuel with
  | zero => intro xs c hc; simp [chunksOfAux] at hc
  | succ fuel ih =>
    intro xs c hc
    rw [chunksOfAux] at hc
    split at hc
    · rcases List.mem_cons.1 hc with h | h
      · subst h
        rename_i hcond
        simp [List.length_take]
        omega
      · exact ih _ _ h
    · simp at hc

theorem chunksOf_length {α : Type} (B : Nat) (hB : 0 < B) (xs : List α) :
    (chunksOf B xs).length = xs.length / B :=
  chunksOfAux_length B hB xs.length xs (Nat.le_refl _)

theorem chunksOf_mem_length {α : Type} (B : Nat) (xs c : List α)
    (hc : c ∈ chunksOf B xs) : c.length = B :=
  chunksOfAux_mem_length B xs.length xs c hc

/-- Claim C5: iterating the loader over a one-element, non-looping shard
list with `N` samples and batch size `B ≥ 1` yields exactly `N / B` batches
(floor division), each of exactly `B` samples — the trailing partial batch
is dropped by the single-file dataloader's `drop_last = True`. -/
theorem c5_single_shard_batches {α : Type} (samples : List α) (B : Nat)
    (hB : 1 ≤ B) :
    (iterTrace false [samples] B 1 0 0).length = samples.length / B ∧
    ∀ e ∈ iterTrace false [samples] B 1 0 0, e.batch.length = B := by
  have htr : iterTrace false [samples] B 1 0 0 =
      fileEvents B 0 none 0 samples := by
    simp [iterTrace]
  constructor
  · rw [htr]
    simp only [fileEvents, List.length_map, List.enum_eq_enumFrom,
      List.enumFrom_length]
    exact chunksOf_length B (by omega) samples
  · intro e he
    rw [htr] at he
    rcases List.mem_map.1 he with ⟨rb, hrb, heq⟩
    subst heq
    have h2 : rb.2 ∈ chunksOf B samples := by
      have := List.mem_enum_iff_getElem?.1 hrb
      exact List.mem_iff_getElem?.2 ⟨rb.1, this⟩
    exact chunksOf_mem_length B samples rb.2 h2

/-- Claim C5 witness: five samples, batch size two. -/
theorem c5_single_shard_batches_witness :
    (iterTrace false [[1, 2, 3, 4, 5]] 2 1 0 0).length =
      [1, 2, 3, 4, 5].length / 2 ∧
    ∀ e ∈ iterTrace false [[1, 2, 3, 4, 5]] 2 1 0 0, e.batch.length = 2 :=
  c5_single_shard_batches [1, 2, 3, 4, 5] 2 (by decide)

theorem forwardConsume_exhaust {α : Type} (count : Nat) :
    ∀ (events : List (YieldEvent α)) (idx : Nat),
      events.length + idx ≤ count →
      forwardConsume count events idx = (idx + events.length, none) := by
  intro events
  induction events with
  | nil => intro idx h; simp [forwardConsume]
  | cons e rest ih =>
    intro idx h
    simp only [List.length_cons] at h
    rw [forwardConsume, if_neg (by omega), ih (idx + 1) (by omega)]
    simp only [List.length_cons]
    congr 1
    omega

theorem forwardConsume_break {α : Type} (count : Nat) (ev : YieldEvent α) :
    ∀ (events : List (YieldEvent α)) (idx : Nat), idx ≤ count →
      events[count - idx]? = some ev →
      forwardConsume count events idx = (count + 1, some ev.cursor) := by
  intro events
  induction events with
  | nil => intro idx hidx hm; simp at hm
  | cons e rest ih =>
    intro idx hidx hm
    by_cases hbr : count ≤ idx
    · have hii : idx = count := Nat.le_antisymm hidx hbr
      subst hii
      rw [Nat.sub_self, List.getElem?_cons_zero] at hm
      have he : e = ev := by simpa using hm
      rw [forwardConsume, if_pos (Nat.le_refl _), he]
    · have hs : count - idx = (count - (idx + 1)) + 1 := by omega
      rw [hs, List.getElem?_cons_succ] at hm
      rw [forwardConsume, if_neg hbr]
      exact ih (idx + 1) (by omega) hm

/-- Claim C6, amended: `forward(count)` — for looping and non-looping
loaders alike — draws `count + 1` batches whenever the iteration holds a
batch with index `count`: the `count <= idx` check runs only after each
draw, so that batch is drawn and then discarded before its post-yield
cursor increment runs, leaving the cursor at that batch's file index and
in-shard offset (not reset), with pool, dataset and in-flight future torn
down.  A non-looping iteration holding at most `count` batches is exhausted
instead: all its batches are drawn and `__iter__`'s own `reset()` (line 77)
forces the cursor to `(0, 0)` before the teardown.  A looping iteration can
fall short of `count + 1` batches only by never producing any (every shard
yields zero full batches), in which case `forward` never returns. -/
theorem c6_forward_draws_one_extra {α : Type} (loop : Bool)
    (files : List (List α)) (B count f0 si0 : Nat)
    (tr : List (YieldEvent α))
    (htr : tr = iterTrace loop files B (forwardFuel loop files count) f0 si0) :
    (∀ ev, tr[count]? = some ev →
      forward loop files B count f0 si0 =
        some (count + 1, ⟨ev.cursor.1, ev.cursor.2, false, false, false⟩)) ∧
    (loop = false → tr.length ≤ count →
      forward loop files B count f0 si0 =
        some (tr.length, ⟨0, 0, false, false, false⟩)) ∧
    (loop = true → tr.length ≤ count →
      forward loop files B count f0 si0 = none) := by
  subst htr
  refine ⟨?_, ?_, ?_⟩
  · intro ev hev
    have hb := forwardConsume_break count ev
      (iterTrace loop files B (forwardFuel loop files count) f0 si0) 0
      (Nat.zero_le _) (by simpa using hev)
    simp [forward, hb]
  · intro hloop hlen
    subst hloop
    have he := forwardConsume_exhaust count
      (iterTrace false files B (forwardFuel false files count) f0 si0) 0
      (by omega)
    simp [forward, he]
  · intro hloop hlen
    subst hloop
    have he := forwardConsume_exhaust count
      (iterTrace true files B (forwardFuel true files count) f0 si0) 0
      (by omega)
    simp [forward, he]

/-- Claim C6 witness: one shard of three samples, batch size one.
Non-looping `forward(1)` draws two batches and parks the cursor at batch
index `1`; the same shard looping, `forward(4)` draws five batches and parks
the cursor on the second pass; non-looping `forward(9)` exhausts after three
batches and resets the cursor; a looping shard too short for a single full
batch starves and `forward` never returns. -/
theorem c6_forward_witness :
    forward false [[10, 20, 30]] 1 1 0 0 =
      some (2, ⟨0, 1, false, false, false⟩) ∧
    forward true [[10, 20, 30]] 1 4 0 0 =
      some (5, ⟨1, 1, false, false, false⟩) ∧
    forward false [[10, 20, 30]] 1 9 0 0 =
      some (3, ⟨0, 0, false, false, false⟩) ∧
    forward true [[1]] 2 0 0 0 = none := by
  have h1 := c6_forward_draws_one_extra false [[10, 20, 30]] 1 1 0 0
    (iterTrace false [[10, 20, 30]] 1 (forwardFuel false [[10, 20, 30]] 1)
      0 0) rfl
  have h2 := c6_forward_draws_one_extra true [[10, 20, 30]] 1 4 0 0
    (iterTrace true [[10, 20, 30]] 1 (forwardFuel true [[10, 20, 30]] 4)
      0 0) rfl
  have h3 := c6_forward_draws_one_extra false [[10, 20, 30]] 1 9 0 0
    (iterTrace false [[10, 20, 30]] 1 (forwardFuel false [[10, 20, 30]] 9)
      0 0) rfl
  have h4 := c6_forward_draws_one_extra true [[1]] 2 0 0 0
    (iterTrace true [[1]] 2 (forwardFuel true [[1]] 0) 0 0) rfl
  refine ⟨h1.1 ⟨0, none, [20], (0, 1)⟩ (by decide),
    h2.1 ⟨1, some 2, [20], (1, 1)⟩ (by decide), ?_, h4.2.2 rfl (by decide)⟩
  exact (h3.2.1 rfl (by decide)).trans (by decide)

/-- Claim C6 counterexample: `forward(0)` on a fresh non-empty loader draws
one batch, not zero — the claim's "draws and discards exactly count batches"
fails at `count = 0`. -/
theorem c6_counterexample :
    forward false [[10, 20, 30]] 1 0 0 0 =
      some (1, ⟨0, 0, false, false, false⟩) ∧ (1 : Nat) ≠ 0 := by decide

/-- Claim C7: at every yield of the streaming loader's iteration — for
either value of `loop`, any shard list, any cursor, and any finite prefix of
the (possibly infinite) iteration — at most one background prefetch is in
flight, at most two shard datasets are resident (the one being consumed plus
the prefetched one), and the prefetched shard index is exactly one ahead of
the shard being consumed, never more. -/
theorem c7_prefetch_one_ahead {α : Type} (loop : Bool)
    (files : List (List α)) (B : Nat) :
    ∀ (fuel f0 si0 : Nat), ∀ e ∈ iterTrace loop files B fuel f0 si0,
      e.futureIdx.toList.length ≤ 1 ∧
      (e.fileIdx :: e.futureIdx.toList).length ≤ 2 ∧
      (e.futureIdx = none ∨ e.futureIdx = some (e.fileIdx + 1)) := by
  intro fuel
  induction fuel with
  | zero => intro f0 si0 e he; simp [iterTrace] at he
  | succ fuel ih =>
    intro f0 si0 e he
    rw [iterTrace] at he
    split at he
    · split at he
      · simp at he
      · rcases List.mem_append.1 he with h | h
        · rcases List.mem_map.1 h with ⟨rb, hrb, heq⟩
          subst heq
          refine ⟨?_, ?_, ?_⟩
          · cases hcond : (if loop = true ∨ f0 + 1 < files.length then
              some (f0 + 1) else none : Option Nat) <;> simp
          · cases hcond : (if loop = true ∨ f0 + 1 < files.length then
              some (f0 + 1) else none : Option Nat) <;> simp
          · by_cases hcond : loop = true ∨ f0 + 1 < files.length
            · right; simp [if_pos hcond]
            · left; simp [if_neg hcond]
        · exact ih (f0 + 1) 0 e h
    · simp at he

/-- Claim C7 witness: a concrete yield event of a concrete iteration. -/
theorem c7_prefetch_one_ahead_witness :
    ((some 1 : Option Nat).toList.length ≤ 1 ∧
      ((0 : Nat) :: (some 1 : Option Nat).toList).length ≤ 2 ∧
      ((some 1 : Option Nat) = none ∨ (some 1 : Option Nat) = some (0 + 1))) :=
  c7_prefetch_one_ahead false [[1, 2], [3]] 1 2 0 0
    ⟨0, some 1, [1], (0, 0)⟩ (by decide)

theorem Heap.read_write_self {α : Type} (h : Heap α) (ref : Nat)
    (v : List α) (href : ref < h.cells.length) :
    (h.write ref v).read ref = v := by
  simp [Heap.read, Heap.write, List.getD_eq_getElem?_getD,
    List.getElem?_set_self href]

theorem Heap.read_write_other {α : Type} (h : Heap α) (ref r : Nat)
    (v : List α) (hne : r ≠ ref) :
    (h.write ref v).read r = h.read r := by
  simp [Heap.read, Heap.write, List.getD_eq_getElem?_getD,
    List.getElem?_set_ne (Ne.symm hne)]

/-- Claim C10: constructing the loader with `shuffle = True` permutes the
caller-supplied shard list *in place*: the loader stores the very reference
the caller passed (no copy is made), the referenced cell afterwards holds a
permutation of its previous contents, and no other heap cell changes; with
`shuffle = False` the heap is left entirely untouched and the same
reference is still stored. -/
theorem c10_shuffle_mutates_callers_list {α : Type} (h : Heap α)
    (files batch_size : Nat) (loop : Bool) (num_workers : Nat)
    (shuffleResult : List α → List α)
    (hperm : ∀ l, List.Perm (shuffleResult l) l)
    (href : files < h.cells.length) :
    ((dataloader_init h files batch_size true loop num_workers
        shuffleResult).2.files = files ∧
      (dataloader_init h files batch_size true loop num_workers
        shuffleResult).1.read files = shuffleResult (h.read files) ∧
      List.Perm ((dataloader_init h files batch_size true loop num_workers
        shuffleResult).1.read files) (h.read files) ∧
      ∀ r, r ≠ files →
        (dataloader_init h files batch_size true loop num_workers
          shuffleResult).1.read r = h.read r) ∧
    ((dataloader_init h files batch_size false loop num_workers
        shuffleResult).1 = h ∧
      (dataloader_init h files batch_size false loop num_workers
        shuffleResult).2.files = files) := by
  have hself := Heap.read_write_self h files (shuffleResult (h.read files)) href
  refine ⟨⟨rfl, ?_, ?_, ?_⟩, rfl, rfl⟩
  · simpa [dataloader_init] using hself
  · have : (dataloader_init h files batch_size true loop num_workers
        shuffleResult).1.read files = shuffleResult (h.read files) := by
      simpa [dataloader_init] using hself
    rw [this]
    exact hperm (h.read files)
  · intro r hr
    simpa [dataloader_init] using
      Heap.read_write_other h files r (shuffleResult (h.read files)) hr

/-- Claim C10 witness: a one-cell heap, with the RNG reordering taken to be
reversal. -/
theorem c10_shuffle_witness :
    (dataloader_init (⟨[[1, 2, 3]]⟩ : Heap Nat) 0 4 true false 1
      List.reverse).2.files = 0 ∧
    (dataloader_init (⟨[[1, 2, 3]]⟩ : Heap Nat) 0 4 true false 1
      List.reverse).1.read 0 = [3, 2, 1] ∧
    (dataloader_init (⟨[[1, 2, 3]]⟩ : Heap Nat) 0 4 false false 1
      List.reverse).1 = ⟨[[1, 2, 3]]⟩ := by
  have h := c10_shuffle_mutates_callers_list (⟨[[1, 2, 3]]⟩ : Heap Nat) 0 4
    false 1 List.reverse (fun l => List.reverse_perm l) (by decide)
  exact ⟨h.1.1, (h.1.2.1).trans (by decide), h.2.1⟩

end BertDataset
